/-
Verification of the fitness-tracker data-parsing repository
(src/parse_gpx.py and src/parse_tcx.py).

The Python code walks XML trees (via gpxpy / lxml), extracts per-point and
per-lap records as dicts, and assembles them into pandas DataFrames.  We give
a shallow embedding: XML elements become an inductive tree type, dicts become
insertion-ordered association lists, Python exceptions become an `Except`
monad over an error-kind type, numeric text coercion (`float`, `int`) becomes
exact decimal parsing into `ℚ` / `ℤ`, and `pd.DataFrame(data, columns=...)`
becomes a record of a column list, an optional index column and the row dicts.
Timestamps are carried as their raw strings (no claim inspects the parsed
value of a timestamp, only its presence or the failure of reading it).
-/
import Mathlib

/-! ## Python-level values, errors and dicts -/

/-- A parsed timestamp.  `dateutil.parser.parse` is modelled as carrying the
raw string: no claim inspects the interior of a timestamp. -/
structure Timestamp where
  raw : String
deriving DecidableEq, Repr

/-- The kinds of Python exceptions the two modules can raise. -/
inductive PyErr where
  | attributeError
  | keyError
  | typeError
  | valueError
  | indexError
  | ioError
  | xmlParseError
deriving DecidableEq, Repr

/-- The values that end up in a record dict.  `float` text coercions are
modelled exactly over `ℚ`; `timedelta(seconds=x)` becomes `dur x`;
Python `None` stored as a dict value becomes `pyNone`. -/
inductive Value where
  | float (q : ℚ)
  | int (z : ℤ)
  | time (t : Timestamp)
  | dur (seconds : ℚ)
  | pyNone
deriving DecidableEq, Repr

/-- A Python dict with string keys: an insertion-ordered association list. -/
abbrev Dict := List (String × Value)

/-- `d[k] = v`: overwrite in place if the key exists, else append. -/
def Dict.insert (d : Dict) (k : String) (v : Value) : Dict :=
  if d.any (fun p => p.1 = k) then
    d.map (fun p => if p.1 = k then (k, v) else p)
  else
    d ++ [(k, v)]

/-- The keys of a dict, in insertion order. -/
def Dict.keys (d : Dict) : List String := d.map (fun p => p.1)

/-- `d.get(k)`: the value at a key, if present. -/
def Dict.lookup (d : Dict) (k : String) : Option Value :=
  match d with
  | [] => none
  | p :: rest => if p.1 = k then some p.2 else Dict.lookup rest k

/-! ## XML elements (lxml `_Element`) -/

mutual
/-- An XML element: tag (kept namespace-qualified, e.g. `"ns:Position"`),
attributes, text content (`none` models lxml's `text is None`) and child
elements in document order.  The child list is its own mutual inductive so
that all tree recursions are structural (and hence computable and
definitionally reducing). -/
inductive Elem where
  | mk (tag : String) (attrs : List (String × String)) (text : Option String)
      (children : ElemList)

inductive ElemList where
  | nil
  | cons (head : Elem) (tail : ElemList)
end

def Elem.tag : Elem → String
  | .mk t _ _ _ => t

def Elem.attrs : Elem → List (String × String)
  | .mk _ a _ _ => a

def Elem.text : Elem → Option String
  | .mk _ _ x _ => x

def Elem.children : Elem → ElemList
  | .mk _ _ _ c => c

/-- Build an `ElemList` from a `List Elem` (used to write document literals). -/
def elist : List Elem → ElemList
  | [] => ElemList.nil
  | c :: cs => ElemList.cons c (elist cs)

/-- First element of the list satisfying a predicate. -/
def ElemList.findP (p : Elem → Bool) : ElemList → Option Elem
  | ElemList.nil => none
  | ElemList.cons c cs => if p c then some c else ElemList.findP p cs

/-- All elements of the list satisfying a predicate, in order. -/
def ElemList.filterP (p : Elem → Bool) : ElemList → List Elem
  | ElemList.nil => []
  | ElemList.cons c cs =>
    if p c then c :: ElemList.filterP p cs else ElemList.filterP p cs

/-- lxml `elem.find(tag)`: the first immediate child with the tag, or None. -/
def Elem.find (e : Elem) (t : String) : Option Elem :=
  ElemList.findP (fun c => c.tag = t) e.children

/-- lxml `elem.findall(tag)`: all immediate children with the tag, in order. -/
def Elem.findall (e : Elem) (t : String) : List Elem :=
  ElemList.filterP (fun c => c.tag = t) e.children

mutual
/-- Does this element or any of its descendants carry the tag?  Document
order, depth first: the element itself, then its children recursively. -/
def findRecElem (t : String) : Elem → Option Elem
  | Elem.mk tg a x ch =>
    if tg = t then some (Elem.mk tg a x ch) else findRecElems t ch

def findRecElems (t : String) : ElemList → Option Elem
  | ElemList.nil => none
  | ElemList.cons c cs =>
    match findRecElem t c with
    | some r => some r
    | none => findRecElems t cs
end

/-- lxml `elem.find('.//tag')`: first proper descendant (any depth) with the
tag, in document order. -/
def Elem.findRec (e : Elem) (t : String) : Option Elem :=
  findRecElems t e.children

/-! ## Text-to-number coercions (`float`, `int`) and `dateutil.parser.parse` -/

/-- The numeric value of a list of decimal digit characters. -/
def digitsVal (cs : List Char) : ℕ :=
  cs.foldl (fun acc c => 10 * acc + (c.toNat - 48)) 0

/-- Exact decimal parsing of the forms accepted here: an optional minus sign,
then digits, optionally a point and more digits (at least one digit in all).
This is the fragment of Python `float(s)` the two modules exercise. -/
def parseDecimal (s : String) : Option ℚ :=
  let cs := s.toList
  let signAndRest : Bool × List Char :=
    match cs with
    | '-' :: rest => (true, rest)
    | _ => (false, cs)
  let intPart := signAndRest.2.takeWhile (fun c => c.isDigit)
  let rest := signAndRest.2.dropWhile (fun c => c.isDigit)
  let mag : Option ℚ :=
    match rest with
    | [] => if intPart.isEmpty then none else some (digitsVal intPart : ℚ)
    | '.' :: fracPart =>
      if fracPart.all (fun c => c.isDigit) ∧ (intPart ≠ [] ∨ fracPart ≠ []) then
        some ((digitsVal intPart : ℚ) + (digitsVal fracPart : ℚ) / (10 : ℚ) ^ fracPart.length)
      else none
    | _ => none
  match mag with
  | none => none
  | some q => some (if signAndRest.1 then -q else q)

/-- The fragment of Python `int(s)` exercised here: an optional minus sign
followed by one or more digits. -/
def parseInteger (s : String) : Option ℤ :=
  let cs := s.toList
  match cs with
  | '-' :: rest =>
    if rest ≠ [] ∧ rest.all (fun c => c.isDigit) then some (-(digitsVal rest : ℤ)) else none
  | _ =>
    if cs ≠ [] ∧ cs.all (fun c => c.isDigit) then some (digitsVal cs : ℤ) else none

/-- Python `float(x)` applied to an element's `.text`: `float(None)` raises
`TypeError`; unparseable text raises `ValueError`. -/
def pyFloat (x : Option String) : Except PyErr ℚ :=
  match x with
  | none => Except.error PyErr.typeError
  | some s =>
    match parseDecimal s with
    | none => Except.error PyErr.valueError
    | some q => Except.ok q

/-- Python `int(x)` applied to an element's `.text`. -/
def pyInt (x : Option String) : Except PyErr ℤ :=
  match x with
  | none => Except.error PyErr.typeError
  | some s =>
    match parseInteger s with
    | none => Except.error PyErr.valueError
    | some z => Except.ok z

/-- Reading `.text` off the result of a `find`: `None.text` raises
`AttributeError`, an element yields its (possibly absent) text. -/
def textOf (x : Option Elem) : Except PyErr (Option String) :=
  match x with
  | none => Except.error PyErr.attributeError
  | some e => Except.ok e.text

/-- `dateutil.parser.parse` on a value that may be `None` (as when fed an
element's `.text`): `parse(None)` raises `TypeError`. -/
def dpParse (x : Option String) : Except PyErr Timestamp :=
  match x with
  | none => Except.error PyErr.typeError
  | some s => Except.ok ⟨s⟩

/-! ## pandas DataFrames -/

/-- The slice of `pd.DataFrame` the modules use: a declared column order, an
optional index column (`set_index`), and the row records.  A cell is read by
key lookup in the row's dict; an omitted optional field is a `none` cell. -/
structure DataFrame where
  index : Option String
  columns : List String
  rows : List Dict
deriving Repr

/-- `pd.DataFrame(data, columns=...)`. -/
def pdDataFrame (data : List Dict) (columns : List String) : DataFrame :=
  ⟨none, columns, data⟩

/-- `df.set_index(col, inplace=True)`: the column moves out of the column
list and becomes the index. -/
def DataFrame.setIndex (df : DataFrame) (col : String) : DataFrame :=
  ⟨some col, df.columns.filter (fun c => c ≠ col), df.rows⟩

/-! ## The repeated optional-field pattern

Both modules repeat one shape: probe for an element, and if it is there,
coerce a text into a typed value and store it under a fixed key, otherwise
leave the record unchanged (`X_elem = node.find(tag); if X_elem is not None:
data[key] = coerce(...)`, and in the GPX module the equivalent
`try: data[key] = int(elem.find(tag).text) except AttributeError: pass`).
`optField` is that shape once; the per-line readers below plug in the exact
coercion of each source line. -/

/-- One optional-field block: absent element leaves the record unchanged,
present element runs the reader and stores the value (reader failures
propagate, exactly as the uncaught `TypeError`/`ValueError`/`AttributeError`
would). -/
def optField (data : Dict) (o : Option Elem) (key : String)
    (read : Elem → Except PyErr Value) : Except PyErr Dict :=
  match o with
  | none => Except.ok data
  | some e => do
    let v ← read e
    Except.ok (Dict.insert data key v)

/-- `float(e.text)`. -/
def readFloat (e : Elem) : Except PyErr Value := do
  let v ← pyFloat e.text
  Except.ok (Value.float v)

/-- `timedelta(seconds=float(e.text))`. -/
def readDur (e : Elem) : Except PyErr Value := do
  let v ← pyFloat e.text
  Except.ok (Value.dur v)

/-- `int(e.text)`. -/
def readInt (e : Elem) : Except PyErr Value := do
  let v ← pyInt e.text
  Except.ok (Value.int v)

/-- `float(e.find('ns:Value', NAMESPACES).text)`: when the nested `ns:Value`
child is absent this is `.text` on `None`, an `AttributeError`. -/
def readWrappedFloat (e : Elem) : Except PyErr Value := do
  let vt ← textOf (e.find "ns:Value")
  let v ← pyFloat vt
  Except.ok (Value.float v)

/-- `int(e.find('ns:Value', NAMESPACES).text)`: when the nested `ns:Value`
child is absent this is `.text` on `None`, an `AttributeError`. -/
def readWrappedInt (e : Elem) : Except PyErr Value := do
  let vt ← textOf (e.find "ns:Value")
  let v ← pyInt vt
  Except.ok (Value.int v)

/-! ## src/parse_tcx.py -/

/-- `POINTS_COLUMN_NAMES` from src/parse_tcx.py. -/
def POINTS_COLUMN_NAMES : List String :=
  ["latitude", "longitude", "elevation", "time", "heart_rate", "cadence", "speed", "lap"]

/-- `LAPS_COLUMN_NAMES` from src/parse_tcx.py. -/
def LAPS_COLUMN_NAMES : List String :=
  ["number", "start_time", "distance", "total_time", "max_speed", "max_hr", "avg_hr"]

/-- `get_tcx_lap_data` from src/parse_tcx.py.  `lap.attrib['StartTime']`
raises `KeyError` when the attribute is absent; for each optional child the
code tests only the wrapper `find` against `None`, so a present
`MaximumHeartRateBpm`/`AverageHeartRateBpm` wrapper whose `ns:Value` child is
absent raises `AttributeError` (`.text` on `None`). -/
def get_tcx_lap_data (lap : Elem) : Except PyErr Dict := do
  let data : Dict := []
  let start_time_str ←
    match lap.attrs.lookup "StartTime" with
    | none => Except.error PyErr.keyError
    | some s => Except.ok s
  let data := Dict.insert data "start_time" (Value.time ⟨start_time_str⟩)
  let data ← optField data (lap.find "ns:DistanceMeters") "distance" readFloat
  let data ← optField data (lap.find "ns:TotalTimeSeconds") "total_time" readDur
  let data ← optField data (lap.find "ns:MaximumSpeed") "max_speed" readFloat
  let data ← optField data (lap.find "ns:MaximumHeartRateBpm") "max_hr" readWrappedFloat
  let data ← optField data (lap.find "ns:AverageHeartRateBpm") "avg_hr" readWrappedFloat
  return data

/-- `get_tcx_point_data` from src/parse_tcx.py.  Returns `ok none` for a
trackpoint without a `ns:Position` child; otherwise reads latitude, longitude
and time as required fields (a missing child there surfaces as an
`AttributeError` from `.text` on `None`), then the optional fields. -/
def get_tcx_point_data (point : Elem) : Except PyErr (Option Dict) := do
  let data : Dict := []
  match point.find "ns:Position" with
  | none =>
    -- This Trackpoint element has no latitude or longitude data; ignored.
    return none
  | some position => do
    let latText ← textOf (position.find "ns:LatitudeDegrees")
    let lat ← pyFloat latText
    let data := Dict.insert data "latitude" (Value.float lat)
    let lonText ← textOf (position.find "ns:LongitudeDegrees")
    let lon ← pyFloat lonText
    let data := Dict.insert data "longitude" (Value.float lon)
    let time_str ← textOf (point.find "ns:Time")
    let t ← dpParse time_str
    let data := Dict.insert data "time" (Value.time t)
    let data ← optField data (point.find "ns:AltitudeMeters") "elevation" readFloat
    let data ← optField data (point.find "ns:HeartRateBpm") "heart_rate" readWrappedInt
    let data ← optField data (point.find "ns:Cadence") "cadence" readInt
    let data ← optField data (Elem.findRec point "ns3:Speed") "speed" readFloat
    return some data

/-- The truthiness test `if single_point_data:` in `get_dataframes`:
`None` and the empty dict are falsy. -/
def truthy (x : Option Dict) : Bool :=
  match x with
  | none => false
  | some d => !d.isEmpty

/-- The inner loop of `get_dataframes`: for each `ns:Trackpoint`, extract the
point record and, when it is truthy, attach the current lap number. -/
def processPoints : List Elem → ℤ → Except PyErr (List Dict)
  | [], _ => Except.ok []
  | point :: rest, lap_no => do
    let single_point_data ← get_tcx_point_data point
    let tail ← processPoints rest lap_no
    if truthy single_point_data then
      Except.ok (Dict.insert (single_point_data.getD []) "lap" (Value.int lap_no) :: tail)
    else
      Except.ok tail

/-- The outer loop of `get_dataframes`: for each `ns:Lap` (counter starting
at `lap_no`), extract the lap record, attach the sequence number, and walk
the lap's `ns:Track` (a lap without one raises `AttributeError` at
`track.findall`). -/
def processLaps : List Elem → ℤ → Except PyErr (List Dict × List Dict)
  | [], _ => Except.ok ([], [])
  | lap :: rest, lap_no => do
    let single_lap_data ← get_tcx_lap_data lap
    let single_lap_data := Dict.insert single_lap_data "number" (Value.int lap_no)
    let track ←
      match lap.find "ns:Track" with
      | none => Except.error PyErr.attributeError
      | some t => Except.ok t
    let pts ← processPoints (track.findall "ns:Trackpoint") lap_no
    let tail ← processLaps rest (lap_no + 1)
    Except.ok (single_lap_data :: tail.1, pts ++ tail.2)

/-- `get_dataframes` from src/parse_tcx.py, applied to the parsed document
root.  `root.find('ns:Activities')[0]` raises `TypeError` when the lookup
returns `None` and `IndexError` when the `Activities` element has no child. -/
def get_dataframes (root : Elem) : Except PyErr (DataFrame × DataFrame) := do
  let activities ←
    match root.find "ns:Activities" with
    | none => Except.error PyErr.typeError
    | some a => Except.ok a
  let activity ←
    match activities.children with
    | ElemList.nil => Except.error PyErr.indexError
    | ElemList.cons a _ => Except.ok a
  let ld ← processLaps (activity.findall "ns:Lap") 1
  let laps_df := DataFrame.setIndex (pdDataFrame ld.1 LAPS_COLUMN_NAMES) "number"
  let points_df := pdDataFrame ld.2 POINTS_COLUMN_NAMES
  return (laps_df, points_df)

/-! ## src/parse_gpx.py -/

/-- `COLUMN_NAMES` from src/parse_gpx.py. -/
def COLUMN_NAMES : List String :=
  ["latitude", "longitude", "elevation", "time", "heart_rate", "cadence"]

/-- A gpxpy `GPXTrackPoint`: latitude/longitude are present in this format
(the code reads them unconditionally), elevation and time may be `None`, and
`extensions` is the list of vendor extension elements. -/
structure GPXTrackPoint where
  latitude : ℚ
  longitude : ℚ
  elevation : Option ℚ
  time : Option Timestamp
  extensions : List Elem

/-- A gpxpy `GPXTrackSegment`. -/
structure GPXTrackSegment where
  points : List GPXTrackPoint

/-- A gpxpy `GPXTrack`. -/
structure GPXTrack where
  segments : List GPXTrackSegment

/-- A parsed gpxpy `GPX` document. -/
structure GPX where
  tracks : List GPXTrack

/-- A Python value that may be `None`, stored into a dict as-is. -/
def optFloatVal (x : Option ℚ) : Value :=
  match x with
  | none => Value.pyNone
  | some q => Value.float q

/-- A Python datetime that may be `None`, stored into a dict as-is. -/
def optTimeVal (x : Option Timestamp) : Value :=
  match x with
  | none => Value.pyNone
  | some t => Value.time t

/-- `get_gpx_point_data` from src/parse_gpx.py.  `point.extensions[0]` raises
`IndexError` on an empty extensions list.  Each `try`/`except AttributeError`
block suppresses exactly the `None.text` failure of a missing tag, so a
missing `garmin_tpe:hr`/`garmin_tpe:cad` tag leaves the field out; a found
tag whose text is absent or non-numeric still raises (`TypeError` /
`ValueError`, which the handler does not catch). -/
def get_gpx_point_data (point : GPXTrackPoint) : Except PyErr Dict := do
  let data : Dict :=
    [("latitude", Value.float point.latitude),
     ("longitude", Value.float point.longitude),
     ("elevation", optFloatVal point.elevation),
     ("time", optTimeVal point.time)]
  let elem ←
    match point.extensions with
    | [] => Except.error PyErr.indexError
    | e :: _ => Except.ok e
  let data ← optField data (elem.find "garmin_tpe:hr") "heart_rate" readInt
  let data ← optField data (elem.find "garmin_tpe:cad") "cadence" readInt
  return data

/-- The input to `get_dataframe_from_gpx`, as seen through `open` and
`gpxpy.parse`: the file is unreadable, is not well-formed for the schema, or
parses to a `GPX` document. -/
inductive GpxFile where
  | unreadable
  | malformed
  | parsed (gpx : GPX)

/-- `get_dataframe_from_gpx` from src/parse_gpx.py.  `open` failure and
`gpxpy.parse` failure propagate; `gpx.tracks[0].segments[0]` raises
`IndexError` when there is no track or the first track has no segment. -/
def get_dataframe_from_gpx (file : GpxFile) : Except PyErr DataFrame := do
  let gpx ←
    match file with
    | GpxFile.unreadable => Except.error PyErr.ioError
    | GpxFile.malformed => Except.error PyErr.xmlParseError
    | GpxFile.parsed g => Except.ok g
  let track ←
    match gpx.tracks with
    | [] => Except.error PyErr.indexError
    | t :: _ => Except.ok t
  let segment ←
    match track.segments with
    | [] => Except.error PyErr.indexError
    | s :: _ => Except.ok s
  let data ← segment.points.mapM get_gpx_point_data
  return pdDataFrame data COLUMN_NAMES

/-! ## Schema conformance

The TCX schema the spec assumes (§4.3 "required floats", "the schema
guarantees it") fixes what a well-formed trackpoint or lap node provides:
latitude/longitude inside a present `Position` and a `Time` child are
present with parseable text, and every optional element that is present
carries readable content.  These decidable predicates state exactly that; the
success-direction theorems take them as hypotheses. -/

/-- Whether an `Except` computation succeeded. -/
def exceptOk {α : Type} : Except PyErr α → Bool
  | Except.ok _ => true
  | Except.error _ => false

def optOk (o : Option Elem) (read : Elem → Except PyErr Value) : Bool :=
  match o with
  | none => true
  | some e => exceptOk (read e)

/-- A format-2 trackpoint node that conforms to the schema: if `Position` is
present it holds parseable latitude and longitude children, `Time` is present
and parseable, and each optional element that is present is readable. -/
def conformingPoint (p : Elem) : Bool :=
  match p.find "ns:Position" with
  | none => true
  | some pos =>
    (match pos.find "ns:LatitudeDegrees" with
     | none => false
     | some e => exceptOk (pyFloat e.text)) &&
    (match pos.find "ns:LongitudeDegrees" with
     | none => false
     | some e => exceptOk (pyFloat e.text)) &&
    (match p.find "ns:Time" with
     | none => false
     | some te => exceptOk (dpParse te.text)) &&
    optOk (p.find "ns:AltitudeMeters") readFloat &&
    optOk (p.find "ns:HeartRateBpm") readWrappedInt &&
    optOk (p.find "ns:Cadence") readInt &&
    optOk (Elem.findRec p "ns3:Speed") readFloat

/-- A format-2 lap node that conforms to the schema: `StartTime` attribute
present and each optional element that is present is readable. -/
def conformingLap (lap : Elem) : Bool :=
  (List.lookup "StartTime" lap.attrs).isSome &&
  optOk (lap.find "ns:DistanceMeters") readFloat &&
  optOk (lap.find "ns:TotalTimeSeconds") readDur &&
  optOk (lap.find "ns:MaximumSpeed") readFloat &&
  optOk (lap.find "ns:MaximumHeartRateBpm") readWrappedFloat &&
  optOk (lap.find "ns:AverageHeartRateBpm") readWrappedFloat


/-! ## Sample documents for concrete instantiations -/

def samplePositionElem : Elem :=
  Elem.mk "ns:Position" [] none
    (elist [Elem.mk "ns:LatitudeDegrees" [] (some "53") (elist []),
            Elem.mk "ns:LongitudeDegrees" [] (some "-6") (elist [])])

def sampleTimeElem : Elem := Elem.mk "ns:Time" [] (some "2021-05-01T10:00:01Z") (elist [])

def samplePoint : Elem :=
  Elem.mk "ns:Trackpoint" [] none (elist [samplePositionElem, sampleTimeElem])

def samplePointNoPos : Elem :=
  Elem.mk "ns:Trackpoint" [] none (elist [sampleTimeElem])

def samplePointNoTime : Elem :=
  Elem.mk "ns:Trackpoint" [] none (elist [samplePositionElem])

def sampleLap : Elem :=
  Elem.mk "ns:Lap" [("StartTime", "2021-05-01T10:00:00Z")] none
    (elist [Elem.mk "ns:Track" [] none (elist [])])

def sampleLapNoTrack : Elem :=
  Elem.mk "ns:Lap" [("StartTime", "2021-05-01T10:00:00Z")] none (elist [])

def sampleHrWrapperNoValue : Elem := Elem.mk "ns:MaximumHeartRateBpm" [] none (elist [])

def sampleLapBadHr : Elem :=
  Elem.mk "ns:Lap" [("StartTime", "2021-05-01T10:00:00Z")] none
    (elist [sampleHrWrapperNoValue])

def sampleLap8 : Elem :=
  Elem.mk "ns:Lap" [("StartTime", "2021-05-01T10:00:00Z")] none
    (elist [Elem.mk "ns:DistanceMeters" [] (some "1609.34") (elist []),
            Elem.mk "ns:TotalTimeSeconds" [] (some "65.0") (elist [])])

def sampleActivity : Elem := Elem.mk "ns:Activity" [] none (elist [sampleLap])

def sampleActivities : Elem := Elem.mk "ns:Activities" [] none (elist [sampleActivity])

def sampleRoot : Elem := Elem.mk "TrainingCenterDatabase" [] none (elist [sampleActivities])

def sampleActivityNoTrack : Elem := Elem.mk "ns:Activity" [] none (elist [sampleLapNoTrack])

def sampleActivitiesNoTrack : Elem :=
  Elem.mk "ns:Activities" [] none (elist [sampleActivityNoTrack])

def sampleRootNoTrack : Elem :=
  Elem.mk "TrainingCenterDatabase" [] none (elist [sampleActivitiesNoTrack])

def sampleExt : Elem := Elem.mk "gpxtpx:TrackPointExtension" [] none (elist [])

def sampleGpxPoint : GPXTrackPoint :=
  { latitude := 53, longitude := -6, elevation := none, time := none,
    extensions := [sampleExt] }

def sampleGpx : GPX := ⟨[⟨[⟨[sampleGpxPoint]⟩]⟩]⟩

def sampleGpxNoTracks : GPX := ⟨[]⟩

def sampleGpxNoSegs : GPX := ⟨[⟨[]⟩]⟩

-- probes

def sampleGpxDF : DataFrame :=
  pdDataFrame [[("latitude", Value.float 53), ("longitude", Value.float (-6)),
    ("elevation", Value.pyNone), ("time", Value.pyNone)]] COLUMN_NAMES

def sampleLapsDF : DataFrame :=
  ⟨some "number", ["start_time", "distance", "total_time", "max_speed", "max_hr", "avg_hr"],
    [[("start_time", Value.time ⟨"2021-05-01T10:00:00Z"⟩), ("number", Value.int 1)]]⟩

def samplePointsDF : DataFrame := ⟨none, POINTS_COLUMN_NAMES, []⟩

def samplePointDict : Dict :=
  [("latitude", Value.float ((53 : ℕ) : ℚ)), ("longitude", Value.float (-((6 : ℕ) : ℚ))),
   ("time", Value.time ⟨"2021-05-01T10:00:01Z"⟩)]

def sampleHrValue : Elem := Elem.mk "ns:Value" [] (some "150") (elist [])

def sampleAvgWrapper : Elem := Elem.mk "ns:AverageHeartRateBpm" [] none (elist [sampleHrValue])

def sampleMaxWrapper : Elem := Elem.mk "ns:MaximumHeartRateBpm" [] none (elist [sampleHrValue])

def sampleLapAvgOnly : Elem :=
  Elem.mk "ns:Lap" [("StartTime", "2021-05-01T10:00:00Z")] none (elist [sampleAvgWrapper])

def sampleLapMaxOnly : Elem :=
  Elem.mk "ns:Lap" [("StartTime", "2021-05-01T10:00:00Z")] none (elist [sampleMaxWrapper])

def sampleAvgWrapperNoValue : Elem := Elem.mk "ns:AverageHeartRateBpm" [] none (elist [])

def sampleLapBadAvgHr : Elem :=
  Elem.mk "ns:Lap" [("StartTime", "2021-05-01T10:00:00Z")] none (elist [sampleAvgWrapperNoValue])

def samplePointHrNoValue : Elem := Elem.mk "ns:HeartRateBpm" [] none (elist [])

def samplePointBadHr : Elem :=
  Elem.mk "ns:Trackpoint" [] none
    (elist [samplePositionElem, sampleTimeElem, samplePointHrNoValue])

/-! ## Helper lemmas about the monad, dicts and the optional-field pattern -/

@[simp] theorem okBind {α β : Type} (a : α) (f : α → Except PyErr β) :
    (Except.ok a >>= f : Except PyErr β) = f a := rfl

@[simp] theorem errBind {α β : Type} (e : PyErr) (f : α → Except PyErr β) :
    (Except.error e >>= f : Except PyErr β) = Except.error e := rfl

@[simp] theorem purePy {α : Type} (a : α) : (pure a : Except PyErr α) = Except.ok a := rfl

theorem exceptBindOk {α β : Type} {x : Except PyErr α} {f : α → Except PyErr β} {b : β}
    (h : (x >>= f) = Except.ok b) : ∃ a, x = Except.ok a ∧ f a = Except.ok b := by
  cases x with
  | ok a => exact ⟨a, rfl, h⟩
  | error e => simp at h

theorem keys_map_overwrite (d : Dict) (k2 : String) (v : Value) :
    Dict.keys (d.map (fun p => if p.1 = k2 then (k2, v) else p)) = Dict.keys d := by
  induction d with
  | nil => rfl
  | cons p rest ih =>
    unfold Dict.keys at *
    simp only [List.map_cons]
    by_cases hc : p.1 = k2 <;> simp [hc, ih]

theorem any_mem_keys (d : Dict) (k2 : String)
    (h : d.any (fun p => p.1 = k2) = true) : k2 ∈ Dict.keys d := by
  induction d with
  | nil => simp at h
  | cons p rest ih =>
    simp only [List.any_cons, Bool.or_eq_true, decide_eq_true_eq] at h
    unfold Dict.keys
    simp only [List.map_cons, List.mem_cons]
    rcases h with h | h
    · exact Or.inl h.symm
    · exact Or.inr (ih h)

theorem mem_keys_insert (d : Dict) (k k2 : String) (v : Value) :
    k ∈ Dict.keys (Dict.insert d k2 v) ↔ k = k2 ∨ k ∈ Dict.keys d := by
  unfold Dict.insert
  split
  · rename_i hany
    rw [keys_map_overwrite]
    constructor
    · exact Or.inr
    · rintro (rfl | hk)
      · exact any_mem_keys d k hany
      · exact hk
  · unfold Dict.keys
    simp
    tauto

theorem insert_ne_nil (d : Dict) (k : String) (v : Value) :
    Dict.insert d k v ≠ [] := by
  unfold Dict.insert
  split
  · rename_i hany
    intro hmap
    rw [List.map_eq_nil_iff] at hmap
    subst hmap
    simp at hany
  · simp

theorem lookup_insert_self (d : Dict) (k : String) (v : Value) :
    Dict.lookup (Dict.insert d k v) k = some v := by
  unfold Dict.insert
  split
  · rename_i hany
    induction d with
    | nil => simp at hany
    | cons p rest ih =>
      simp only [List.any_cons, Bool.or_eq_true, decide_eq_true_eq] at hany
      by_cases hc : p.1 = k
      · simp [Dict.lookup, hc]
      · rcases hany with h | h
        · exact absurd h hc
        · simp only [List.map_cons, if_neg hc, Dict.lookup, hc, if_false]
          exact ih h
  · induction d with
    | nil => simp [Dict.lookup]
    | cons p rest ih =>
      rename_i hany
      simp only [List.any_cons, Bool.or_eq_true, decide_eq_true_eq, not_or] at hany
      simp only [List.cons_append, Dict.lookup, hany.1, if_false]
      exact ih (by simp [hany.2])

theorem lookup_eq_none_of_not_mem (d : Dict) (k : String)
    (h : k ∉ Dict.keys d) : Dict.lookup d k = none := by
  induction d with
  | nil => rfl
  | cons p rest ih =>
    unfold Dict.keys at h
    simp only [List.map_cons, List.mem_cons, not_or] at h
    simp only [Dict.lookup]
    rw [if_neg (fun hc => h.1 hc.symm)]
    exact ih h.2

theorem lookup_map_overwrite_ne (d : Dict) (k k2 : String) (v : Value) (hne : k ≠ k2) :
    Dict.lookup (d.map (fun p => if p.1 = k2 then (k2, v) else p)) k = Dict.lookup d k := by
  induction d with
  | nil => rfl
  | cons p rest ih =>
    by_cases hc : p.1 = k2
    · have h1 : ¬(k2 = k) := fun he => hne he.symm
      have h2 : ¬(p.1 = k) := fun he => h1 (hc ▸ he)
      simp only [List.map_cons, if_pos hc, Dict.lookup, if_neg h1, if_neg h2]
      exact ih
    · simp only [List.map_cons, if_neg hc, Dict.lookup]
      rw [ih]

theorem lookup_append_single_ne (d : Dict) (k k2 : String) (v : Value) (hne : k ≠ k2) :
    Dict.lookup (d ++ [(k2, v)]) k = Dict.lookup d k := by
  induction d with
  | nil =>
    simp only [List.nil_append, Dict.lookup]
    rw [if_neg (fun he => hne he.symm)]
  | cons p rest ih =>
    simp only [List.cons_append, List.append_eq, Dict.lookup]
    rw [ih]

theorem lookup_insert_of_ne (d : Dict) (k k2 : String) (v : Value) (hne : k ≠ k2) :
    Dict.lookup (Dict.insert d k2 v) k = Dict.lookup d k := by
  unfold Dict.insert
  split
  · exact lookup_map_overwrite_ne d k k2 v hne
  · exact lookup_append_single_ne d k k2 v hne

theorem optField_ok_keys {data d1 : Dict} {o : Option Elem} {key : String}
    {read : Elem → Except PyErr Value}
    (h : optField data o key read = Except.ok d1) :
    (∀ k, k ∈ Dict.keys data → k ∈ Dict.keys d1) ∧
    (∀ k, k ∈ Dict.keys d1 → k = key ∨ k ∈ Dict.keys data) := by
  unfold optField at h
  cases o with
  | none =>
    simp only [Except.ok.injEq] at h
    subst h
    exact ⟨fun k hk => hk, fun k hk => Or.inr hk⟩
  | some e =>
    obtain ⟨v, hv, h⟩ := exceptBindOk h
    simp only [Except.ok.injEq] at h
    subst h
    exact ⟨fun k hk => (mem_keys_insert _ _ _ _).mpr (Or.inr hk),
           fun k hk => (mem_keys_insert _ _ _ _).mp hk⟩

theorem optField_ok_lookup_ne {data d1 : Dict} {o : Option Elem} {key k : String}
    {read : Elem → Except PyErr Value} (hne : k ≠ key)
    (h : optField data o key read = Except.ok d1) :
    Dict.lookup d1 k = Dict.lookup data k := by
  unfold optField at h
  cases o with
  | none =>
    simp only [Except.ok.injEq] at h
    subst h
    rfl
  | some e =>
    obtain ⟨v, hv, h⟩ := exceptBindOk h
    simp only [Except.ok.injEq] at h
    subst h
    exact lookup_insert_of_ne _ _ _ _ hne

theorem optField_none {data : Dict} {key : String} {read : Elem → Except PyErr Value} :
    optField data none key read = Except.ok data := rfl

theorem exceptOk_iff {α : Type} (x : Except PyErr α) :
    exceptOk x = true ↔ ∃ a, x = Except.ok a := by
  cases x <;> simp [exceptOk]

/-- An optional element is either absent or readable by its reader. -/
theorem optField_progress {o : Option Elem} {read : Elem → Except PyErr Value}
    (h : optOk o read = true) (data : Dict) (key : String) :
    ∃ d1, optField data o key read = Except.ok d1 := by
  cases o with
  | none => exact ⟨data, rfl⟩
  | some e =>
    rw [optOk] at h
    obtain ⟨v, hv⟩ := (exceptOk_iff _).mp h
    exact ⟨Dict.insert data key v, by simp [optField, hv]⟩


/-! ## Inversion lemmas for the extractors -/

theorem tcx_point_ok_keys (p : Elem) (d : Dict)
    (h : get_tcx_point_data p = Except.ok (some d)) :
    "latitude" ∈ Dict.keys d ∧ "longitude" ∈ Dict.keys d ∧ "time" ∈ Dict.keys d := by
  unfold get_tcx_point_data at h
  cases hpos : p.find "ns:Position" with
  | none => rw [hpos] at h; simp at h
  | some pos =>
    rw [hpos] at h
    obtain ⟨latText, hlt, h⟩ := exceptBindOk h
    try simp only [okBind, purePy] at h
    obtain ⟨lat, hlat, h⟩ := exceptBindOk h
    try simp only [okBind, purePy] at h
    obtain ⟨lonText, hlnt, h⟩ := exceptBindOk h
    try simp only [okBind, purePy] at h
    obtain ⟨lon, hlon, h⟩ := exceptBindOk h
    try simp only [okBind, purePy] at h
    obtain ⟨time_str, hts, h⟩ := exceptBindOk h
    try simp only [okBind, purePy] at h
    obtain ⟨t, ht, h⟩ := exceptBindOk h
    try simp only [okBind, purePy] at h
    obtain ⟨d1, hstep1, h⟩ := exceptBindOk h
    obtain ⟨hs1, _⟩ := optField_ok_keys hstep1
    try simp only [okBind, purePy] at h
    obtain ⟨d2, hstep2, h⟩ := exceptBindOk h
    obtain ⟨hs2, _⟩ := optField_ok_keys hstep2
    try simp only [okBind, purePy] at h
    obtain ⟨d3, hstep3, h⟩ := exceptBindOk h
    obtain ⟨hs3, _⟩ := optField_ok_keys hstep3
    try simp only [okBind, purePy] at h
    obtain ⟨d4, hstep4, h⟩ := exceptBindOk h
    obtain ⟨hs4, _⟩ := optField_ok_keys hstep4
    try simp only [okBind, purePy] at h
    simp only [Except.ok.injEq, Option.some.injEq] at h
    subst h
    have hbase : "latitude" ∈ Dict.keys (Dict.insert (Dict.insert (Dict.insert []
        "latitude" (Value.float lat)) "longitude" (Value.float lon)) "time" (Value.time t)) ∧
        "longitude" ∈ Dict.keys (Dict.insert (Dict.insert (Dict.insert []
        "latitude" (Value.float lat)) "longitude" (Value.float lon)) "time" (Value.time t)) ∧
        "time" ∈ Dict.keys (Dict.insert (Dict.insert (Dict.insert []
        "latitude" (Value.float lat)) "longitude" (Value.float lon)) "time" (Value.time t)) := by
      simp [mem_keys_insert]
    exact ⟨hs4 _ (hs3 _ (hs2 _ (hs1 _ hbase.1))),
           hs4 _ (hs3 _ (hs2 _ (hs1 _ hbase.2.1))),
           hs4 _ (hs3 _ (hs2 _ (hs1 _ hbase.2.2)))⟩

theorem tcx_lap_ok_keys (lap : Elem) (d : Dict)
    (h : get_tcx_lap_data lap = Except.ok d) :
    ∀ k, k ∈ Dict.keys d →
      k ∈ ["start_time", "distance", "total_time", "max_speed", "max_hr", "avg_hr"] := by
  unfold get_tcx_lap_data at h
  cases hst : List.lookup "StartTime" lap.attrs with
  | none =>
    rw [hst] at h
    simp at h
  | some st =>
  rw [hst] at h
  simp only [okBind, errBind, purePy] at h
  obtain ⟨d1, hstep1, h⟩ := exceptBindOk h
  obtain ⟨_, hs1⟩ := optField_ok_keys hstep1
  try simp only [okBind, purePy] at h
  obtain ⟨d2, hstep2, h⟩ := exceptBindOk h
  obtain ⟨_, hs2⟩ := optField_ok_keys hstep2
  try simp only [okBind, purePy] at h
  obtain ⟨d3, hstep3, h⟩ := exceptBindOk h
  obtain ⟨_, hs3⟩ := optField_ok_keys hstep3
  try simp only [okBind, purePy] at h
  obtain ⟨d4, hstep4, h⟩ := exceptBindOk h
  obtain ⟨_, hs4⟩ := optField_ok_keys hstep4
  try simp only [okBind, purePy] at h
  obtain ⟨d5, hstep5, h⟩ := exceptBindOk h
  obtain ⟨_, hs5⟩ := optField_ok_keys hstep5
  try simp only [okBind, purePy] at h
  simp only [Except.ok.injEq] at h
  subst h
  intro k hk
  rcases hs5 _ hk with rfl | hk5
  · simp
  rcases hs4 _ hk5 with rfl | hk4
  · simp
  rcases hs3 _ hk4 with rfl | hk3
  · simp
  rcases hs2 _ hk3 with rfl | hk2
  · simp
  rcases hs1 _ hk2 with rfl | hk1
  · simp
  rcases (mem_keys_insert _ _ _ _).mp hk1 with rfl | hk0
  · simp
  · simp [Dict.keys] at hk0

/-! ## Success of the extractors on conforming nodes -/

theorem tcx_point_no_position (p : Elem) (hpos : p.find "ns:Position" = none) :
    get_tcx_point_data p = Except.ok none := by
  unfold get_tcx_point_data
  rw [hpos]
  rfl

theorem tcx_point_conforming_some (p pos : Elem)
    (hpos : p.find "ns:Position" = some pos)
    (hc : conformingPoint p = true) :
    ∃ d, get_tcx_point_data p = Except.ok (some d) := by
  unfold conformingPoint at hc
  rw [hpos] at hc
  simp only [Bool.and_eq_true] at hc
  obtain ⟨⟨⟨⟨⟨⟨h1, h2⟩, h3⟩, h4⟩, h5⟩, h6⟩, h7⟩ := hc
  cases hlat : pos.find "ns:LatitudeDegrees" with
  | none => rw [hlat] at h1; simp at h1
  | some e1 =>
  rw [hlat] at h1
  obtain ⟨q1, hq1⟩ := (exceptOk_iff _).mp h1
  cases hlon : pos.find "ns:LongitudeDegrees" with
  | none => rw [hlon] at h2; simp at h2
  | some e2 =>
  rw [hlon] at h2
  obtain ⟨q2, hq2⟩ := (exceptOk_iff _).mp h2
  cases htime : p.find "ns:Time" with
  | none => rw [htime] at h3; simp at h3
  | some te =>
  rw [htime] at h3
  obtain ⟨t, ht⟩ := (exceptOk_iff _).mp h3
  obtain ⟨d1, hd1⟩ := optField_progress h4
    (Dict.insert (Dict.insert (Dict.insert [] "latitude" (Value.float q1))
      "longitude" (Value.float q2)) "time" (Value.time t)) "elevation"
  obtain ⟨d2, hd2⟩ := optField_progress h5 d1 "heart_rate"
  obtain ⟨d3, hd3⟩ := optField_progress h6 d2 "cadence"
  obtain ⟨d4, hd4⟩ := optField_progress h7 d3 "speed"
  refine ⟨d4, ?_⟩
  simp [get_tcx_point_data, hpos, hlat, hq1, hlon, hq2, htime, ht, textOf,
    hd1, hd2, hd3, hd4]

theorem tcx_lap_conforming_ok (lap : Elem) (hc : conformingLap lap = true) :
    ∃ d, get_tcx_lap_data lap = Except.ok d := by
  unfold conformingLap at hc
  simp only [Bool.and_eq_true] at hc
  obtain ⟨⟨⟨⟨⟨h0, h1⟩, h2⟩, h3⟩, h4⟩, h5⟩ := hc
  obtain ⟨st, hst⟩ := Option.isSome_iff_exists.mp h0
  obtain ⟨d1, hd1⟩ := optField_progress h1 (Dict.insert [] "start_time" (Value.time ⟨st⟩)) "distance"
  obtain ⟨d2, hd2⟩ := optField_progress h2 d1 "total_time"
  obtain ⟨d3, hd3⟩ := optField_progress h3 d2 "max_speed"
  obtain ⟨d4, hd4⟩ := optField_progress h4 d3 "max_hr"
  obtain ⟨d5, hd5⟩ := optField_progress h5 d4 "avg_hr"
  refine ⟨d5, ?_⟩
  simp [get_tcx_lap_data, hst, hd1, hd2, hd3, hd4, hd5]

/-! ## Loop-level lemmas for the format-2 assembler -/

theorem keys_ne_nil {d : Dict} {k : String} (h : k ∈ Dict.keys d) : d ≠ [] := by
  cases d with
  | nil => simp [Dict.keys] at h
  | cons p rest => simp

theorem processPoints_count (points : List Elem) (n : ℤ)
    (hc : ∀ p ∈ points, conformingPoint p = true) :
    ∃ out, processPoints points n = Except.ok out ∧
      out.length ≤ points.length ∧
      (out.length = points.length ↔ ∀ p ∈ points, (p.find "ns:Position").isSome = true) := by
  induction points with
  | nil => exact ⟨[], rfl, le_refl 0, by simp⟩
  | cons p ps ih =>
    obtain ⟨out, hout, hle, hiff⟩ := ih (fun q hq => hc q (List.mem_cons_of_mem p hq))
    have hcp : conformingPoint p = true := hc p (List.mem_cons_self p ps)
    cases hpos : p.find "ns:Position" with
    | none =>
      have hnone := tcx_point_no_position p hpos
      refine ⟨out, ?_, ?_, ?_⟩
      · simp [processPoints, hnone, truthy, hout]
      · exact le_trans hle (Nat.le_succ _)
      · constructor
        · intro hlen
          exfalso
          simp [List.length_cons] at hlen
          omega
        · intro hall
          have := hall p (List.mem_cons_self p ps)
          rw [hpos] at this
          simp at this
    | some pos =>
      obtain ⟨d, hd⟩ := tcx_point_conforming_some p pos hpos hcp
      obtain ⟨hlat, _, _⟩ := tcx_point_ok_keys p d hd
      have hne : d ≠ [] := keys_ne_nil hlat
      have htr : truthy (some d) = true := by simp [truthy, hne]
      refine ⟨Dict.insert d "lap" (Value.int n) :: out, ?_, ?_, ?_⟩
      · simp [processPoints, hd, hout, htr]
      · simpa using Nat.succ_le_succ hle
      · simp only [List.length_cons, Nat.succ.injEq, List.mem_cons]
        constructor
        · intro hlen
          intro q hq
          rcases hq with rfl | hq
          · rw [hpos]; rfl
          · exact (hiff.mp hlen) q hq
        · intro hall
          exact hiff.mpr (fun q hq => hall q (Or.inr hq))

theorem processLaps_numbers (laps : List Elem) (n : ℤ) (ld pd : List Dict)
    (h : processLaps laps n = Except.ok (ld, pd)) :
    ld.map (fun d => Dict.lookup d "number")
      = (List.range ld.length).map (fun i : ℕ => some (Value.int (n + (i : ℤ)))) := by
  induction laps generalizing n ld pd with
  | nil =>
    simp only [processLaps, Except.ok.injEq, Prod.mk.injEq] at h
    obtain ⟨h1, h2⟩ := h
    subst h1
    simp
  | cons lap rest ih =>
    unfold processLaps at h
    obtain ⟨d, hd, h⟩ := exceptBindOk h
    try simp only [okBind, purePy] at h
    cases htrack : lap.find "ns:Track" with
    | none => rw [htrack] at h; simp at h
    | some track =>
    rw [htrack] at h
    try simp only [okBind, errBind, purePy] at h
    obtain ⟨pts, hpts, h⟩ := exceptBindOk h
    try simp only [okBind, purePy] at h
    obtain ⟨tail, htail, h⟩ := exceptBindOk h
    try simp only [okBind, purePy] at h
    simp only [Except.ok.injEq, Prod.mk.injEq] at h
    obtain ⟨h1, h2⟩ := h
    subst h1
    have ihh := ih (n + 1) tail.1 tail.2 (by rw [← htail])
    simp only [List.map_cons, List.length_cons, List.range_succ_eq_map, List.map_map]
    congr 1
    · simpa using lookup_insert_self _ _ _
    · rw [ihh]
      apply List.map_congr_left
      intro i _
      simp only [Function.comp_apply, Option.some.injEq, Value.int.injEq]
      push_cast
      ring

theorem processLaps_append_error (pre post : List Elem) (lap : Elem) (n : ℤ)
    (s : List Dict × List Dict)
    (hpre : processLaps pre n = Except.ok s)
    (d : Dict) (hlap : get_tcx_lap_data lap = Except.ok d)
    (htrack : lap.find "ns:Track" = none) :
    processLaps (pre ++ lap :: post) n = Except.error PyErr.attributeError := by
  induction pre generalizing n s with
  | nil =>
    simp only [List.nil_append]
    unfold processLaps
    rw [hlap]
    simp [htrack]
  | cons p pre ih =>
    unfold processLaps at hpre
    obtain ⟨dp, hdp, hpre⟩ := exceptBindOk hpre
    try simp only [okBind, purePy] at hpre
    cases htr : p.find "ns:Track" with
    | none => rw [htr] at hpre; simp at hpre
    | some tr =>
    rw [htr] at hpre
    try simp only [okBind, errBind, purePy] at hpre
    obtain ⟨pts, hpts, hpre⟩ := exceptBindOk hpre
    try simp only [okBind, purePy] at hpre
    obtain ⟨tail, htail, hpre⟩ := exceptBindOk hpre
    simp only [List.cons_append]
    unfold processLaps
    rw [hdp]
    simp only [okBind, purePy]
    rw [htr]
    simp only [okBind, errBind, purePy]
    rw [hpts]
    simp only [okBind, purePy]
    rw [ih (n + 1) tail htail]
    rfl

theorem get_dataframes_ok_inv (root : Elem) (ldf pdf : DataFrame)
    (h : get_dataframes root = Except.ok (ldf, pdf)) :
    ∃ acts a rest lp,
      root.find "ns:Activities" = some acts ∧
      Elem.children acts = ElemList.cons a rest ∧
      processLaps (Elem.findall a "ns:Lap") 1 = Except.ok lp ∧
      ldf = DataFrame.setIndex (pdDataFrame lp.1 LAPS_COLUMN_NAMES) "number" ∧
      pdf = pdDataFrame lp.2 POINTS_COLUMN_NAMES := by
  unfold get_dataframes at h
  cases hacts : root.find "ns:Activities" with
  | none => rw [hacts] at h; simp at h
  | some acts =>
    rw [hacts] at h
    simp only [okBind, purePy] at h
    cases hch : acts.children with
    | nil => rw [hch] at h; simp at h
    | cons a rest =>
      rw [hch] at h
      simp only [okBind, purePy] at h
      obtain ⟨lp, hlp, h⟩ := exceptBindOk h
      try simp only [okBind, purePy] at h
      simp only [Except.ok.injEq, Prod.mk.injEq] at h
      exact ⟨acts, a, rest, lp, rfl, hch, hlp, h.1.symm, h.2.symm⟩

/-! ## Further support lemmas for the claims -/

@[simp] theorem textOf_none : textOf none = Except.error PyErr.attributeError := rfl

@[simp] theorem textOf_some (e : Elem) : textOf (some e) = Except.ok (Elem.text e) := rfl

theorem optField_preserves_not_mem {data d1 : Dict} {o : Option Elem} {key k : String}
    {read : Elem → Except PyErr Value}
    (h : optField data o key read = Except.ok d1)
    (hne : k ≠ key) (hk : k ∉ Dict.keys data) : k ∉ Dict.keys d1 := by
  intro hmem
  rcases (optField_ok_keys h).2 _ hmem with h' | h'
  · exact hne h'
  · exact hk h'

theorem not_mem_keys_insert {d : Dict} {k key : String} {v : Value}
    (hne : k ≠ key) (hk : k ∉ Dict.keys d) : k ∉ Dict.keys (Dict.insert d key v) := by
  intro h
  rcases (mem_keys_insert _ _ _ _).mp h with h | h
  · exact hne h
  · exact hk h

theorem not_mem_keys_nil (k : String) : k ∉ Dict.keys [] := by simp [Dict.keys]

theorem gpx_ok_inv (file : GpxFile) (df : DataFrame)
    (h : get_dataframe_from_gpx file = Except.ok df) :
    ∃ data, df = pdDataFrame data COLUMN_NAMES := by
  cases file with
  | unreadable => simp [get_dataframe_from_gpx] at h
  | malformed => simp [get_dataframe_from_gpx] at h
  | parsed g =>
    unfold get_dataframe_from_gpx at h
    simp only [okBind, errBind, purePy] at h
    cases hg : g.tracks with
    | nil => rw [hg] at h; simp at h
    | cons t ts =>
      rw [hg] at h
      simp only [okBind, purePy] at h
      cases hs : t.segments with
      | nil => rw [hs] at h; simp at h
      | cons seg segs =>
        rw [hs] at h
        simp only [okBind, purePy] at h
        obtain ⟨data, hdata, h⟩ := exceptBindOk h
        simp only [purePy, Except.ok.injEq] at h
        exact ⟨data, h.symm⟩

theorem parseDecimal_1609_34 : parseDecimal "1609.34" = some ((1609.34 : ℚ)) := by
  simp [parseDecimal, digitsVal, List.takeWhile, List.dropWhile]
  try norm_num

theorem parseDecimal_65_0 : parseDecimal "65.0" = some ((65 : ℚ)) := by
  simp [parseDecimal, digitsVal, List.takeWhile, List.dropWhile]
  try norm_num

/-! ## The claims -/

/-- C1: for every format-2 track-point node (conforming to the schema) that
contains a `Position` sub-element, `get_tcx_point_data` yields exactly one
record, with latitude, longitude and time present; for every track-point node
without a `Position` sub-element it yields no record; hence the assembler's
point loop outputs at most as many rows as input points, with equality iff
every input point has a `Position` sub-element. -/
theorem C1_point_filtering (points : List Elem) (n : ℤ)
    (hc : ∀ p ∈ points, conformingPoint p = true) :
    (∀ p ∈ points, ∀ pos, Elem.find p "ns:Position" = some pos →
      ∃ d, get_tcx_point_data p = Except.ok (some d) ∧
        "latitude" ∈ Dict.keys d ∧ "longitude" ∈ Dict.keys d ∧ "time" ∈ Dict.keys d) ∧
    (∀ p ∈ points, Elem.find p "ns:Position" = none →
      get_tcx_point_data p = Except.ok none) ∧
    (∃ out, processPoints points n = Except.ok out ∧
      out.length ≤ points.length ∧
      (out.length = points.length ↔
        ∀ p ∈ points, (Elem.find p "ns:Position").isSome = true)) := by
  refine ⟨?_, ?_, processPoints_count points n hc⟩
  · intro p hp pos hpos
    obtain ⟨d, hd⟩ := tcx_point_conforming_some p pos hpos (hc p hp)
    obtain ⟨h1, h2, h3⟩ := tcx_point_ok_keys p d hd
    exact ⟨d, hd, h1, h2, h3⟩
  · intro p _ hpos
    exact tcx_point_no_position p hpos


/-- C2 (amended): each of the `max_hr`/`avg_hr`/`heart_rate` fields read
through a wrapper element with a nested `Value` child is omitted from the
record — without raising — whenever its own wrapper element is absent
(independently of the other wrapper); but when a wrapper is present and its
nested `Value` child is absent, an AttributeError propagates — for the lap's
`MaximumHeartRateBpm` and `AverageHeartRateBpm` and for the point's
`HeartRateBpm` alike (see `C2_counterexample` for the claim as originally
stated). -/
theorem C2_wrapped_hr (lap p pos : Elem) :
    ((List.lookup "StartTime" (Elem.attrs lap)).isSome = true →
      optOk (Elem.find lap "ns:DistanceMeters") readFloat = true →
      optOk (Elem.find lap "ns:TotalTimeSeconds") readDur = true →
      optOk (Elem.find lap "ns:MaximumSpeed") readFloat = true →
      Elem.find lap "ns:MaximumHeartRateBpm" = none →
      optOk (Elem.find lap "ns:AverageHeartRateBpm") readWrappedFloat = true →
      ∃ d, get_tcx_lap_data lap = Except.ok d ∧ "max_hr" ∉ Dict.keys d) ∧
    ((List.lookup "StartTime" (Elem.attrs lap)).isSome = true →
      optOk (Elem.find lap "ns:DistanceMeters") readFloat = true →
      optOk (Elem.find lap "ns:TotalTimeSeconds") readDur = true →
      optOk (Elem.find lap "ns:MaximumSpeed") readFloat = true →
      optOk (Elem.find lap "ns:MaximumHeartRateBpm") readWrappedFloat = true →
      Elem.find lap "ns:AverageHeartRateBpm" = none →
      ∃ d, get_tcx_lap_data lap = Except.ok d ∧ "avg_hr" ∉ Dict.keys d) ∧
    (Elem.find p "ns:Position" = some pos →
      conformingPoint p = true →
      Elem.find p "ns:HeartRateBpm" = none →
      ∃ d, get_tcx_point_data p = Except.ok (some d) ∧ "heart_rate" ∉ Dict.keys d) ∧
    (∀ w, (List.lookup "StartTime" (Elem.attrs lap)).isSome = true →
      optOk (Elem.find lap "ns:DistanceMeters") readFloat = true →
      optOk (Elem.find lap "ns:TotalTimeSeconds") readDur = true →
      optOk (Elem.find lap "ns:MaximumSpeed") readFloat = true →
      Elem.find lap "ns:MaximumHeartRateBpm" = some w →
      Elem.find w "ns:Value" = none →
      get_tcx_lap_data lap = Except.error PyErr.attributeError) ∧
    (∀ w, (List.lookup "StartTime" (Elem.attrs lap)).isSome = true →
      optOk (Elem.find lap "ns:DistanceMeters") readFloat = true →
      optOk (Elem.find lap "ns:TotalTimeSeconds") readDur = true →
      optOk (Elem.find lap "ns:MaximumSpeed") readFloat = true →
      optOk (Elem.find lap "ns:MaximumHeartRateBpm") readWrappedFloat = true →
      Elem.find lap "ns:AverageHeartRateBpm" = some w →
      Elem.find w "ns:Value" = none →
      get_tcx_lap_data lap = Except.error PyErr.attributeError) ∧
    (∀ w e1 e2 te (q1 q2 : ℚ) (t : Timestamp),
      Elem.find p "ns:Position" = some pos →
      Elem.find pos "ns:LatitudeDegrees" = some e1 →
      pyFloat (Elem.text e1) = Except.ok q1 →
      Elem.find pos "ns:LongitudeDegrees" = some e2 →
      pyFloat (Elem.text e2) = Except.ok q2 →
      Elem.find p "ns:Time" = some te →
      dpParse (Elem.text te) = Except.ok t →
      optOk (Elem.find p "ns:AltitudeMeters") readFloat = true →
      Elem.find p "ns:HeartRateBpm" = some w →
      Elem.find w "ns:Value" = none →
      get_tcx_point_data p = Except.error PyErr.attributeError) := by
  refine ⟨?_, ?_, ?_, ?_, ?_, ?_⟩
  · intro h0 h1 h2 h3 hmx havg
    obtain ⟨st, hst⟩ := Option.isSome_iff_exists.mp h0
    obtain ⟨d1, hd1⟩ := optField_progress h1
      (Dict.insert [] "start_time" (Value.time ⟨st⟩)) "distance"
    obtain ⟨d2, hd2⟩ := optField_progress h2 d1 "total_time"
    obtain ⟨d3, hd3⟩ := optField_progress h3 d2 "max_speed"
    have hd4 : optField d3 (lap.find "ns:MaximumHeartRateBpm") "max_hr" readWrappedFloat
        = Except.ok d3 := by rw [hmx]; rfl
    obtain ⟨d5, hd5⟩ := optField_progress havg d3 "avg_hr"
    have hbase : ("max_hr" : String) ∉ Dict.keys (Dict.insert [] "start_time" (Value.time ⟨st⟩)) :=
      not_mem_keys_insert (by decide) (not_mem_keys_nil _)
    refine ⟨d5, ?_, ?_⟩
    · simp [get_tcx_lap_data, hst, hd1, hd2, hd3, hd4, hd5]
    · exact optField_preserves_not_mem hd5 (by decide)
        (optField_preserves_not_mem hd3 (by decide)
          (optField_preserves_not_mem hd2 (by decide)
            (optField_preserves_not_mem hd1 (by decide) hbase)))
  · intro h0 h1 h2 h3 hmxok havg
    obtain ⟨st, hst⟩ := Option.isSome_iff_exists.mp h0
    obtain ⟨d1, hd1⟩ := optField_progress h1
      (Dict.insert [] "start_time" (Value.time ⟨st⟩)) "distance"
    obtain ⟨d2, hd2⟩ := optField_progress h2 d1 "total_time"
    obtain ⟨d3, hd3⟩ := optField_progress h3 d2 "max_speed"
    obtain ⟨d4, hd4⟩ := optField_progress hmxok d3 "max_hr"
    have hd5 : optField d4 (lap.find "ns:AverageHeartRateBpm") "avg_hr" readWrappedFloat
        = Except.ok d4 := by rw [havg]; rfl
    have hbase : ("avg_hr" : String) ∉ Dict.keys (Dict.insert [] "start_time" (Value.time ⟨st⟩)) :=
      not_mem_keys_insert (by decide) (not_mem_keys_nil _)
    refine ⟨d4, ?_, ?_⟩
    · simp [get_tcx_lap_data, hst, hd1, hd2, hd3, hd4, hd5]
    · exact optField_preserves_not_mem hd4 (by decide)
        (optField_preserves_not_mem hd3 (by decide)
          (optField_preserves_not_mem hd2 (by decide)
            (optField_preserves_not_mem hd1 (by decide) hbase)))
  · intro hpos hc hhr
    unfold conformingPoint at hc
    rw [hpos] at hc
    simp only [Bool.and_eq_true] at hc
    obtain ⟨⟨⟨⟨⟨⟨h1, h2⟩, h3⟩, h4⟩, h5⟩, h6⟩, h7⟩ := hc
    cases hlat : pos.find "ns:LatitudeDegrees" with
    | none => rw [hlat] at h1; simp at h1
    | some e1 =>
    rw [hlat] at h1
    obtain ⟨q1, hq1⟩ := (exceptOk_iff _).mp h1
    cases hlon : pos.find "ns:LongitudeDegrees" with
    | none => rw [hlon] at h2; simp at h2
    | some e2 =>
    rw [hlon] at h2
    obtain ⟨q2, hq2⟩ := (exceptOk_iff _).mp h2
    cases htime : p.find "ns:Time" with
    | none => rw [htime] at h3; simp at h3
    | some te =>
    rw [htime] at h3
    obtain ⟨t, ht⟩ := (exceptOk_iff _).mp h3
    obtain ⟨d1, hd1⟩ := optField_progress h4
      (Dict.insert (Dict.insert (Dict.insert [] "latitude" (Value.float q1))
        "longitude" (Value.float q2)) "time" (Value.time t)) "elevation"
    have hd2 : optField d1 (p.find "ns:HeartRateBpm") "heart_rate" readWrappedInt
        = Except.ok d1 := by rw [hhr]; rfl
    obtain ⟨d3, hd3⟩ := optField_progress h6 d1 "cadence"
    obtain ⟨d4, hd4⟩ := optField_progress h7 d3 "speed"
    have hbase : ("heart_rate" : String) ∉ Dict.keys (Dict.insert (Dict.insert (Dict.insert []
        "latitude" (Value.float q1)) "longitude" (Value.float q2)) "time" (Value.time t)) :=
      not_mem_keys_insert (by decide) (not_mem_keys_insert (by decide)
        (not_mem_keys_insert (by decide) (not_mem_keys_nil _)))
    refine ⟨d4, ?_, ?_⟩
    · simp [get_tcx_point_data, hpos, hlat, hq1, hlon, hq2, htime, ht, hd1, hd2, hd3, hd4]
    · exact optField_preserves_not_mem hd4 (by decide)
        (optField_preserves_not_mem hd3 (by decide)
          (optField_preserves_not_mem hd1 (by decide) hbase))
  · intro w h0 h1 h2 h3 hmx hvw
    obtain ⟨st, hst⟩ := Option.isSome_iff_exists.mp h0
    obtain ⟨d1, hd1⟩ := optField_progress h1
      (Dict.insert [] "start_time" (Value.time ⟨st⟩)) "distance"
    obtain ⟨d2, hd2⟩ := optField_progress h2 d1 "total_time"
    obtain ⟨d3, hd3⟩ := optField_progress h3 d2 "max_speed"
    have hfail : optField d3 (lap.find "ns:MaximumHeartRateBpm") "max_hr" readWrappedFloat
        = Except.error PyErr.attributeError := by
      rw [hmx]
      simp [optField, readWrappedFloat, hvw]
    simp [get_tcx_lap_data, hst, hd1, hd2, hd3, hfail]
  · intro w h0 h1 h2 h3 hmxok havg hvw
    obtain ⟨st, hst⟩ := Option.isSome_iff_exists.mp h0
    obtain ⟨d1, hd1⟩ := optField_progress h1
      (Dict.insert [] "start_time" (Value.time ⟨st⟩)) "distance"
    obtain ⟨d2, hd2⟩ := optField_progress h2 d1 "total_time"
    obtain ⟨d3, hd3⟩ := optField_progress h3 d2 "max_speed"
    obtain ⟨d4, hd4⟩ := optField_progress hmxok d3 "max_hr"
    have hfail : optField d4 (lap.find "ns:AverageHeartRateBpm") "avg_hr" readWrappedFloat
        = Except.error PyErr.attributeError := by
      rw [havg]
      simp [optField, readWrappedFloat, hvw]
    simp [get_tcx_lap_data, hst, hd1, hd2, hd3, hd4, hfail]
  · intro w e1 e2 te q1 q2 t hpos2 hlat hq1 hlon hq2 htime hts halt hhrw hvw
    obtain ⟨d1, hd1⟩ := optField_progress halt
      (Dict.insert (Dict.insert (Dict.insert [] "latitude" (Value.float q1))
        "longitude" (Value.float q2)) "time" (Value.time t)) "elevation"
    have hfail : optField d1 (p.find "ns:HeartRateBpm") "heart_rate" readWrappedInt
        = Except.error PyErr.attributeError := by
      rw [hhrw]
      simp [optField, readWrappedInt, hvw]
    simp [get_tcx_point_data, hpos2, hlat, hq1, hlon, hq2, htime, hts, hd1, hfail]


/-- C3: the lap records produced by `get_dataframes` carry `number` fields
exactly 1..N in document order of the lap elements, assigned by the
assembler's iteration counter; the lap extractor itself assigns no
`number` field, so the value can never come from an identifier in the
source file. -/
theorem C3_lap_numbering (root : Elem) (ldf pdf : DataFrame)
    (h : get_dataframes root = Except.ok (ldf, pdf)) :
    (ldf.rows.map (fun d => Dict.lookup d "number")
      = (List.range ldf.rows.length).map (fun i : ℕ => some (Value.int (1 + (i : ℤ))))) ∧
    (∀ lap d, get_tcx_lap_data lap = Except.ok d → "number" ∉ Dict.keys d) := by
  constructor
  · obtain ⟨acts, a, rest, lp, hacts, hch, hlp, hldf, hpdf⟩ := get_dataframes_ok_inv root ldf pdf h
    subst hldf
    have hrows : (DataFrame.setIndex (pdDataFrame lp.1 LAPS_COLUMN_NAMES) "number").rows = lp.1 := rfl
    rw [hrows]
    exact processLaps_numbers _ _ _ _ (by rw [hlp])
  · intro lap d hlap hmem
    have := tcx_lap_ok_keys lap d hlap "number" hmem
    simp at this


/-- C4: `get_dataframe_from_gpx` fails with an IOError when the file cannot
be opened, with a ParseError when the file is not well-formed XML in the
expected schema, and with an IndexError when the parsed document contains
zero tracks or zero segments; none of these conditions is recovered from. -/
theorem C4_gpx_failure_modes :
    get_dataframe_from_gpx GpxFile.unreadable = Except.error PyErr.ioError ∧
    get_dataframe_from_gpx GpxFile.malformed = Except.error PyErr.xmlParseError ∧
    (∀ g : GPX, g.tracks = [] →
      get_dataframe_from_gpx (GpxFile.parsed g) = Except.error PyErr.indexError) ∧
    (∀ (g : GPX) (t : GPXTrack) (ts : List GPXTrack), g.tracks = t :: ts →
      t.segments = [] →
      get_dataframe_from_gpx (GpxFile.parsed g) = Except.error PyErr.indexError) := by
  refine ⟨rfl, rfl, ?_, ?_⟩
  · intro g hg
    simp [get_dataframe_from_gpx, hg]
  · intro g t ts hg hs
    simp [get_dataframe_from_gpx, hg, hs]


/-- C5: for every format-1 track point carrying at least one extension block
(the code reads `extensions[0]`, assuming exactly one) whose present
heart-rate/cadence tags are readable, `get_gpx_point_data` returns exactly
one record; if the extension block lacks the heart-rate or cadence tag the
corresponding field is simply omitted (no error, no default), while
latitude, longitude, elevation and time are still populated. -/
theorem C5_gpx_point_extraction (point : GPXTrackPoint) (ext : Elem) (rest : List Elem)
    (hext : point.extensions = ext :: rest)
    (hhr : optOk (Elem.find ext "garmin_tpe:hr") readInt = true)
    (hcad : optOk (Elem.find ext "garmin_tpe:cad") readInt = true) :
    ∃ d, get_gpx_point_data point = Except.ok d ∧
      "latitude" ∈ Dict.keys d ∧ "longitude" ∈ Dict.keys d ∧
      "elevation" ∈ Dict.keys d ∧ "time" ∈ Dict.keys d ∧
      (Elem.find ext "garmin_tpe:hr" = none → "heart_rate" ∉ Dict.keys d) ∧
      (Elem.find ext "garmin_tpe:cad" = none → "cadence" ∉ Dict.keys d) := by
  obtain ⟨d1, hd1⟩ := optField_progress hhr
    [("latitude", Value.float point.latitude), ("longitude", Value.float point.longitude),
     ("elevation", optFloatVal point.elevation), ("time", optTimeVal point.time)] "heart_rate"
  obtain ⟨d2, hd2⟩ := optField_progress hcad d1 "cadence"
  have hbase : Dict.keys [("latitude", Value.float point.latitude),
      ("longitude", Value.float point.longitude),
      ("elevation", optFloatVal point.elevation), ("time", optTimeVal point.time)]
      = ["latitude", "longitude", "elevation", "time"] := rfl
  have hk1 := (optField_ok_keys hd1).1
  have hk2 := (optField_ok_keys hd2).1
  refine ⟨d2, ?_, ?_, ?_, ?_, ?_, ?_, ?_⟩
  · simp [get_gpx_point_data, hext, hd1, hd2]
  · exact hk2 _ (hk1 _ (by rw [hbase]; simp))
  · exact hk2 _ (hk1 _ (by rw [hbase]; simp))
  · exact hk2 _ (hk1 _ (by rw [hbase]; simp))
  · exact hk2 _ (hk1 _ (by rw [hbase]; simp))
  · intro hnone
    rw [hnone] at hd1
    simp only [optField, Except.ok.injEq] at hd1
    subst hd1
    exact optField_preserves_not_mem hd2 (by decide) (by rw [hbase]; decide)
  · intro hnone
    rw [hnone] at hd2
    simp only [optField, Except.ok.injEq] at hd2
    subst hd2
    exact optField_preserves_not_mem hd1 (by decide) (by rw [hbase]; decide)


/-- C6: a format-2 track-point node that has a `Position` sub-element but no
`Time` sub-element neither returns a record nor skips the point: the
extraction fails, and when the position fields themselves read cleanly the
failure is precisely the AttributeError from `.text` on the `None` returned
by the `Time` lookup. -/
theorem C6_missing_time_propagates (p pos : Elem)
    (hpos : Elem.find p "ns:Position" = some pos)
    (htime : Elem.find p "ns:Time" = none) :
    (∃ e, get_tcx_point_data p = Except.error e) ∧
    (∀ e1 e2 q1 q2, Elem.find pos "ns:LatitudeDegrees" = some e1 →
      pyFloat (Elem.text e1) = Except.ok q1 →
      Elem.find pos "ns:LongitudeDegrees" = some e2 →
      pyFloat (Elem.text e2) = Except.ok q2 →
      get_tcx_point_data p = Except.error PyErr.attributeError) := by
  constructor
  · cases h1 : textOf (pos.find "ns:LatitudeDegrees") with
    | error e => exact ⟨e, by simp [get_tcx_point_data, hpos, h1]⟩
    | ok latText =>
      cases h2 : pyFloat latText with
      | error e => exact ⟨e, by simp [get_tcx_point_data, hpos, h1, h2]⟩
      | ok lat =>
        cases h3 : textOf (pos.find "ns:LongitudeDegrees") with
        | error e => exact ⟨e, by simp [get_tcx_point_data, hpos, h1, h2, h3]⟩
        | ok lonText =>
          cases h4 : pyFloat lonText with
          | error e => exact ⟨e, by simp [get_tcx_point_data, hpos, h1, h2, h3, h4]⟩
          | ok lon =>
            exact ⟨PyErr.attributeError,
              by simp [get_tcx_point_data, hpos, h1, h2, h3, h4, htime]⟩
  · intro e1 e2 q1 q2 hlat hq1 hlon hq2
    simp [get_tcx_point_data, hpos, hlat, hq1, hlon, hq2, htime]


/-- C7: for every successful run of either assembler, every output table has
exactly the declared fixed column order — `COLUMN_NAMES` for format 1;
`LAPS_COLUMN_NAMES` (with `number` as the index column) and
`POINTS_COLUMN_NAMES` for format 2 — independent of which optional fields
are populated, and rows whose records omitted a field have a null cell in
that column. -/
theorem C7_column_order :
    (∀ (file : GpxFile) (df : DataFrame), get_dataframe_from_gpx file = Except.ok df →
      df.columns = COLUMN_NAMES ∧ df.index = none ∧
      (∀ row ∈ df.rows, ∀ c, c ∉ Dict.keys row → Dict.lookup row c = none)) ∧
    (∀ (root : Elem) (ldf pdf : DataFrame), get_dataframes root = Except.ok (ldf, pdf) →
      ldf.index = some "number" ∧ "number" :: ldf.columns = LAPS_COLUMN_NAMES ∧
      pdf.index = none ∧ pdf.columns = POINTS_COLUMN_NAMES ∧
      (∀ row ∈ ldf.rows, ∀ c, c ∉ Dict.keys row → Dict.lookup row c = none) ∧
      (∀ row ∈ pdf.rows, ∀ c, c ∉ Dict.keys row → Dict.lookup row c = none)) := by
  constructor
  · intro file df h
    obtain ⟨data, hdf⟩ := gpx_ok_inv file df h
    subst hdf
    exact ⟨rfl, rfl, fun row _ c hc => lookup_eq_none_of_not_mem row c hc⟩
  · intro root ldf pdf h
    obtain ⟨acts, a, rest, lp, hacts, hch, hlp, hldf, hpdf⟩ := get_dataframes_ok_inv root ldf pdf h
    subst hldf
    subst hpdf
    exact ⟨rfl, rfl, rfl, rfl,
      fun row _ c hc => lookup_eq_none_of_not_mem row c hc,
      fun row _ c hc => lookup_eq_none_of_not_mem row c hc⟩


/-- C8: for every format-2 lap node whose `DistanceMeters` child has text
"1609.34", `get_tcx_lap_data` records the number 1609.34 as the distance;
for every lap node whose `TotalTimeSeconds` child has text "65.0", it
records a duration of exactly 65 seconds as the total time. -/
theorem C8_numeric_fidelity (lap ed et : Elem) (st : String)
    (hst : List.lookup "StartTime" (Elem.attrs lap) = some st)
    (hd : Elem.find lap "ns:DistanceMeters" = some ed)
    (hdt : Elem.text ed = some "1609.34")
    (ht : Elem.find lap "ns:TotalTimeSeconds" = some et)
    (htt : Elem.text et = some "65.0")
    (h3 : optOk (Elem.find lap "ns:MaximumSpeed") readFloat = true)
    (h4 : optOk (Elem.find lap "ns:MaximumHeartRateBpm") readWrappedFloat = true)
    (h5 : optOk (Elem.find lap "ns:AverageHeartRateBpm") readWrappedFloat = true) :
    ∃ d, get_tcx_lap_data lap = Except.ok d ∧
      Dict.lookup d "distance" = some (Value.float (1609.34 : ℚ)) ∧
      Dict.lookup d "total_time" = some (Value.dur (65 : ℚ)) := by
  have hd1 : optField (Dict.insert [] "start_time" (Value.time ⟨st⟩))
      (lap.find "ns:DistanceMeters") "distance" readFloat
      = Except.ok (Dict.insert (Dict.insert [] "start_time" (Value.time ⟨st⟩))
          "distance" (Value.float (1609.34 : ℚ))) := by
    rw [hd]
    simp [optField, readFloat, pyFloat, hdt, parseDecimal_1609_34]
  have hd2 : optField (Dict.insert (Dict.insert [] "start_time" (Value.time ⟨st⟩))
        "distance" (Value.float (1609.34 : ℚ)))
      (lap.find "ns:TotalTimeSeconds") "total_time" readDur
      = Except.ok (Dict.insert (Dict.insert (Dict.insert [] "start_time" (Value.time ⟨st⟩))
          "distance" (Value.float (1609.34 : ℚ))) "total_time" (Value.dur (65 : ℚ))) := by
    rw [ht]
    simp [optField, readDur, pyFloat, htt, parseDecimal_65_0]
  obtain ⟨d3, hd3⟩ := optField_progress h3 (Dict.insert (Dict.insert (Dict.insert []
      "start_time" (Value.time ⟨st⟩)) "distance" (Value.float (1609.34 : ℚ)))
      "total_time" (Value.dur (65 : ℚ))) "max_speed"
  obtain ⟨d4, hd4⟩ := optField_progress h4 d3 "max_hr"
  obtain ⟨d5, hd5⟩ := optField_progress h5 d4 "avg_hr"
  have hlook1 : Dict.lookup d5 "distance" = some (Value.float (1609.34 : ℚ)) := by
    rw [optField_ok_lookup_ne (by decide) hd5, optField_ok_lookup_ne (by decide) hd4,
      optField_ok_lookup_ne (by decide) hd3,
      lookup_insert_of_ne _ _ _ _ (by decide), lookup_insert_self]
  have hlook2 : Dict.lookup d5 "total_time" = some (Value.dur (65 : ℚ)) := by
    rw [optField_ok_lookup_ne (by decide) hd5, optField_ok_lookup_ne (by decide) hd4,
      optField_ok_lookup_ne (by decide) hd3, lookup_insert_self]
  exact ⟨d5, by simp [get_tcx_lap_data, hst, hd1, hd2, hd3, hd4, hd5], hlook1, hlook2⟩


/-- C9: for every format-2 document in which some lap element has no `Track`
child (all earlier laps processing cleanly), `get_dataframes` raises an
unhandled AttributeError — the whole extraction aborts and no tables are
returned — even though the lap's own record had already been extracted. -/
theorem C9_missing_track_aborts (root acts a : Elem) (rest : ElemList)
    (pre post : List Elem) (lap : Elem) (s : List Dict × List Dict) (d : Dict)
    (hacts : Elem.find root "ns:Activities" = some acts)
    (hch : Elem.children acts = ElemList.cons a rest)
    (hlaps : Elem.findall a "ns:Lap" = pre ++ lap :: post)
    (hpre : processLaps pre 1 = Except.ok s)
    (hlap : get_tcx_lap_data lap = Except.ok d)
    (htrack : Elem.find lap "ns:Track" = none) :
    get_dataframes root = Except.error PyErr.attributeError := by
  unfold get_dataframes
  rw [hacts]
  simp only [okBind, purePy]
  rw [hch]
  simp only [okBind, purePy]
  rw [hlaps, processLaps_append_error pre post lap 1 s hpre d hlap htrack]
  rfl


/-- C10: every dict returned by `get_tcx_point_data` is non-empty (it always
contains at least latitude and longitude), so the assembler's truthiness
test on the returned value is equivalent to a not-None test and no produced
record is ever silently discarded by that check. -/
theorem C10_truthiness (p : Elem) (r : Option Dict)
    (h : get_tcx_point_data p = Except.ok r) :
    truthy r = r.isSome ∧
    (∀ d, r = some d → "latitude" ∈ Dict.keys d ∧ "longitude" ∈ Dict.keys d ∧ d ≠ []) := by
  constructor
  · cases r with
    | none => rfl
    | some d =>
      obtain ⟨hlat, _, _⟩ := tcx_point_ok_keys p d h
      simp [truthy, keys_ne_nil hlat]
  · intro d hd
    subst hd
    obtain ⟨hlat, hlon, _⟩ := tcx_point_ok_keys p d h
    exact ⟨hlat, hlon, keys_ne_nil hlat⟩


/-! ## Witnesses and counterexample -/

/-- Witness for C1 at a two-point list: one point with position, one without. -/
theorem C1_witness :
    ∃ out, processPoints [samplePoint, samplePointNoPos] 1 = Except.ok out ∧
      out.length ≤ [samplePoint, samplePointNoPos].length ∧
      (out.length = [samplePoint, samplePointNoPos].length ↔
        ∀ p ∈ [samplePoint, samplePointNoPos], (Elem.find p "ns:Position").isSome = true) :=
  (C1_point_filtering [samplePoint, samplePointNoPos] 1 (by decide)).2.2


/-- Counterexample to C2 as stated: a lap whose `MaximumHeartRateBpm`
wrapper is present but has no nested `Value` child makes `get_tcx_lap_data`
raise an AttributeError instead of omitting the field without raising. -/
theorem C2_counterexample :
    Elem.find sampleLapBadHr "ns:MaximumHeartRateBpm" = some sampleHrWrapperNoValue ∧
    Elem.find sampleHrWrapperNoValue "ns:Value" = none ∧
    get_tcx_lap_data sampleLapBadHr = Except.error PyErr.attributeError :=
  ⟨rfl, rfl, rfl⟩


/-- Witness for the amended C2: single-wrapper-absent omission on both lap
sides, point-side omission, and the Value-less-wrapper AttributeError for
max, avg and the point's heart rate, at concrete nodes. -/
theorem C2_witness :
    (∃ d, get_tcx_lap_data sampleLapAvgOnly = Except.ok d ∧ "max_hr" ∉ Dict.keys d) ∧
    (∃ d, get_tcx_lap_data sampleLapMaxOnly = Except.ok d ∧ "avg_hr" ∉ Dict.keys d) ∧
    (∃ d, get_tcx_point_data samplePoint = Except.ok (some d) ∧ "heart_rate" ∉ Dict.keys d) ∧
    get_tcx_lap_data sampleLapBadHr = Except.error PyErr.attributeError ∧
    get_tcx_lap_data sampleLapBadAvgHr = Except.error PyErr.attributeError ∧
    get_tcx_point_data samplePointBadHr = Except.error PyErr.attributeError :=
  ⟨(C2_wrapped_hr sampleLapAvgOnly samplePoint samplePositionElem).1
      rfl rfl rfl rfl rfl rfl,
   (C2_wrapped_hr sampleLapMaxOnly samplePoint samplePositionElem).2.1
      rfl rfl rfl rfl rfl rfl,
   (C2_wrapped_hr sampleLapMaxOnly samplePoint samplePositionElem).2.2.1
      rfl (by decide) rfl,
   (C2_wrapped_hr sampleLapBadHr samplePoint samplePositionElem).2.2.2.1
      sampleHrWrapperNoValue rfl rfl rfl rfl rfl rfl,
   (C2_wrapped_hr sampleLapBadAvgHr samplePoint samplePositionElem).2.2.2.2.1
      sampleAvgWrapperNoValue rfl rfl rfl rfl rfl rfl rfl,
   (C2_wrapped_hr sampleLapBadHr samplePointBadHr samplePositionElem).2.2.2.2.2
      samplePointHrNoValue
      (Elem.mk "ns:LatitudeDegrees" [] (some "53") (elist []))
      (Elem.mk "ns:LongitudeDegrees" [] (some "-6") (elist []))
      sampleTimeElem ((53 : ℕ) : ℚ) (-((6 : ℕ) : ℚ)) ⟨"2021-05-01T10:00:01Z"⟩
      rfl rfl rfl rfl rfl rfl rfl rfl rfl rfl⟩


/-- Witness for C3 at a one-lap document. -/
theorem C3_witness :
    (sampleLapsDF.rows.map (fun d => Dict.lookup d "number")
      = (List.range sampleLapsDF.rows.length).map (fun i : ℕ => some (Value.int (1 + (i : ℤ))))) ∧
    (∀ lap d, get_tcx_lap_data lap = Except.ok d → "number" ∉ Dict.keys d) :=
  C3_lap_numbering sampleRoot sampleLapsDF samplePointsDF (by rfl)


/-- Witness for C4 at documents with zero tracks and zero segments. -/
theorem C4_witness :
    get_dataframe_from_gpx (GpxFile.parsed sampleGpxNoTracks) = Except.error PyErr.indexError ∧
    get_dataframe_from_gpx (GpxFile.parsed sampleGpxNoSegs) = Except.error PyErr.indexError :=
  ⟨C4_gpx_failure_modes.2.2.1 sampleGpxNoTracks rfl,
   C4_gpx_failure_modes.2.2.2 sampleGpxNoSegs ⟨[]⟩ [] rfl rfl⟩


/-- Witness for C5 at a point whose extension block has no hr/cad tags. -/
theorem C5_witness :
    ∃ d, get_gpx_point_data sampleGpxPoint = Except.ok d ∧
      "latitude" ∈ Dict.keys d ∧ "longitude" ∈ Dict.keys d ∧
      "elevation" ∈ Dict.keys d ∧ "time" ∈ Dict.keys d ∧
      (Elem.find sampleExt "garmin_tpe:hr" = none → "heart_rate" ∉ Dict.keys d) ∧
      (Elem.find sampleExt "garmin_tpe:cad" = none → "cadence" ∉ Dict.keys d) :=
  C5_gpx_point_extraction sampleGpxPoint sampleExt [] rfl rfl rfl


/-- Witness for C6 at a point with a position but no time element. -/
theorem C6_witness :
    (∃ e, get_tcx_point_data samplePointNoTime = Except.error e) ∧
    get_tcx_point_data samplePointNoTime = Except.error PyErr.attributeError :=
  ⟨(C6_missing_time_propagates samplePointNoTime samplePositionElem rfl rfl).1,
   (C6_missing_time_propagates samplePointNoTime samplePositionElem rfl rfl).2
     (Elem.mk "ns:LatitudeDegrees" [] (some "53") (elist []))
     (Elem.mk "ns:LongitudeDegrees" [] (some "-6") (elist []))
     ((53 : ℕ) : ℚ) (-((6 : ℕ) : ℚ)) rfl rfl rfl rfl⟩


/-- Witness for C7 at concrete format-1 and format-2 documents. -/
theorem C7_witness :
    (sampleGpxDF.columns = COLUMN_NAMES ∧ sampleGpxDF.index = none ∧
      (∀ row ∈ sampleGpxDF.rows, ∀ c, c ∉ Dict.keys row → Dict.lookup row c = none)) ∧
    (sampleLapsDF.index = some "number" ∧
      "number" :: sampleLapsDF.columns = LAPS_COLUMN_NAMES ∧
      samplePointsDF.index = none ∧ samplePointsDF.columns = POINTS_COLUMN_NAMES ∧
      (∀ row ∈ sampleLapsDF.rows, ∀ c, c ∉ Dict.keys row → Dict.lookup row c = none) ∧
      (∀ row ∈ samplePointsDF.rows, ∀ c, c ∉ Dict.keys row → Dict.lookup row c = none)) :=
  ⟨C7_column_order.1 (GpxFile.parsed sampleGpx) sampleGpxDF rfl,
   C7_column_order.2 sampleRoot sampleLapsDF samplePointsDF rfl⟩


/-- Witness for C8 at a lap carrying the two literal texts. -/
theorem C8_witness :
    ∃ d, get_tcx_lap_data sampleLap8 = Except.ok d ∧
      Dict.lookup d "distance" = some (Value.float (1609.34 : ℚ)) ∧
      Dict.lookup d "total_time" = some (Value.dur (65 : ℚ)) :=
  C8_numeric_fidelity sampleLap8 (Elem.mk "ns:DistanceMeters" [] (some "1609.34") (elist []))
    (Elem.mk "ns:TotalTimeSeconds" [] (some "65.0") (elist [])) "2021-05-01T10:00:00Z"
    rfl rfl rfl rfl rfl rfl rfl rfl


/-- Witness for C9 at a one-lap document whose lap has no track. -/
theorem C9_witness : get_dataframes sampleRootNoTrack = Except.error PyErr.attributeError :=
  C9_missing_track_aborts sampleRootNoTrack sampleActivitiesNoTrack sampleActivityNoTrack
    ElemList.nil [] [] sampleLapNoTrack ([], [])
    [("start_time", Value.time ⟨"2021-05-01T10:00:00Z"⟩)]
    rfl rfl rfl rfl rfl rfl


/-- Witness for C10 at a concrete extracted record. -/
theorem C10_witness :
    truthy (some samplePointDict) = (some samplePointDict).isSome ∧
    (∀ d, some samplePointDict = some d →
      "latitude" ∈ Dict.keys d ∧ "longitude" ∈ Dict.keys d ∧ d ≠ []) :=
  C10_truthiness samplePoint (some samplePointDict) (by rfl)

